import Mathlib

/-!
Verification development for the gd backend core: the Telegram initData
trust validator (src/backend/main.py), the dual-backend usage store and the
quota policy engine (src/backend/database.py).

The Python source is shallowly embedded: each Lean definition transcribes one
Python function (or one statement-level step of it).  Machine-level details
that the claims depend on are modelled concretely: HMAC-SHA256 is implemented
in full over byte lists (FIPS 180-4 / RFC 2104), query-string parsing follows
urllib.parse.parse_qs with keep_blank_values=True, and the decimal
string codecs model str()/int()/float() on the values this system produces.
Timestamps are modelled at integer-second granularity (the Python code uses
time.time() floats; every comparison in the source is against whole-second
constants).  json.loads of the user field is a parameter of the environment:
the claims depend only on which identity dictionary it yields, never on JSON
syntax.
-/

namespace GD

/-! ## Decimal string codec (models Python str, int and float on the
values produced by this system: optionally signed decimal integers, and
floats of the shape "<int>.0").  Python int() also strips surrounding
whitespace and accepts underscores; no caller in this code base produces
such strings, so that is not modelled. -/

/-- Character of a single decimal digit. -/
def digitChar (d : Nat) : Char := Char.ofNat (48 + d)

/-- Numeric value of a decimal digit character. -/
def digitVal (c : Char) : Nat := c.toNat - 48

/-- Decimal digit test, by code point. -/
def isDigitB (c : Char) : Bool := decide (48 ≤ c.toNat ∧ c.toNat ≤ 57)

/-- Python str(n) for a natural number. -/
def natToStr (n : Nat) : String :=
  if n = 0 then "0"
  else String.mk (((Nat.digits 10 n).map digitChar).reverse)

/-- Python str(n) for an integer. -/
def intStr (n : Int) : String :=
  if n < 0 then "-" ++ natToStr n.natAbs else natToStr n.natAbs

/-- Value of a nonempty all-digit big-endian character list. -/
def decodeDigits (cs : List Char) : Option Nat :=
  if cs ≠ [] ∧ cs.all isDigitB then
    some (Nat.ofDigits 10 (cs.reverse.map digitVal))
  else none

/-- Python int(s) on a character list: optional sign then decimal digits;
none models a raised ValueError. -/
def pyIntCore (cs : List Char) : Option Int :=
  if cs.head? = some '-' then (decodeDigits (cs.drop 1)).map (fun n => -(n : Int))
  else if cs.head? = some '+' then (decodeDigits (cs.drop 1)).map (fun n => (n : Int))
  else (decodeDigits cs).map (fun n => (n : Int))

/-- Python int(s). -/
def pyInt (s : String) : Option Int := pyIntCore s.data

/-- Python str(x) of an integral float value (time.time style values as
stored by this system). -/
def floatStrI (n : Int) : String := intStr n ++ ".0"

/-- Python float(s), restricted to the decimal strings this system
produces: either an integer literal or an integer literal followed by ".0";
none models a raised ValueError. -/
def pyFloatI (s : String) : Option Int :=
  let cs := s.data
  if 2 ≤ cs.length ∧ cs.drop (cs.length - 2) = ['.', '0'] then
    pyIntCore (cs.take (cs.length - 2))
  else pyIntCore cs

/-! ### Round-trip lemmas for the codec -/

theorem digitVal_digitChar {d : Nat} (hd : d < 10) : digitVal (digitChar d) = d := by
  interval_cases d <;> decide

theorem isDigitB_digitChar {d : Nat} (hd : d < 10) : isDigitB (digitChar d) = true := by
  interval_cases d <;> decide

theorem decodeDigits_natToStr (n : Nat) : decodeDigits (natToStr n).data = some n := by
  by_cases h0 : n = 0
  · subst h0; decide
  · have hne : Nat.digits 10 n ≠ [] := Nat.digits_ne_nil_iff_ne_zero.mpr h0
    have hlt : ∀ d ∈ Nat.digits 10 n, d < 10 := fun d hd =>
      Nat.digits_lt_base (by norm_num) hd
    unfold natToStr
    rw [if_neg h0]
    show decodeDigits (((Nat.digits 10 n).map digitChar).reverse) = some n
    unfold decodeDigits
    rw [if_pos]
    · congr 1
      rw [List.reverse_reverse, List.map_map]
      have : (Nat.digits 10 n).map (digitVal ∘ digitChar) = (Nat.digits 10 n).map id := by
        apply List.map_congr_left
        intro d hd
        exact digitVal_digitChar (hlt d hd)
      rw [this, List.map_id, Nat.ofDigits_digits]
    · constructor
      · simp [hne]
      · rw [List.all_eq_true]
        intro c hc
        rw [List.mem_reverse, List.mem_map] at hc
        obtain ⟨d, hd, rfl⟩ := hc
        exact isDigitB_digitChar (hlt d hd)

theorem head_natToStr_isDigit (n : Nat) :
    ∀ c, (natToStr n).data.head? = some c → isDigitB c = true := by
  intro c hc
  have h := decodeDigits_natToStr n
  unfold decodeDigits at h
  by_cases hcond : (natToStr n).data ≠ [] ∧ (natToStr n).data.all isDigitB
  · have hall := hcond.2
    rw [List.all_eq_true] at hall
    exact hall c (List.mem_of_mem_head? hc)
  · rw [if_neg hcond] at h; exact absurd h (by simp)

theorem pyIntCore_natToStr (n : Nat) : pyIntCore (natToStr n).data = some (n : Int) := by
  unfold pyIntCore
  have hm : ∀ c, (natToStr n).data.head? = some c → isDigitB c = true :=
    head_natToStr_isDigit n
  rw [if_neg, if_neg]
  · rw [decodeDigits_natToStr]; rfl
  · intro h; have := hm '+' h; simp [isDigitB] at this
  · intro h; have := hm '-' h; simp [isDigitB] at this

theorem data_minus_append (s : String) : ("-" ++ s).data = '-' :: s.data := by
  cases s
  rfl

theorem pyInt_intStr (n : Int) : pyInt (intStr n) = some n := by
  unfold pyInt intStr
  by_cases hn : n < 0
  · rw [if_pos hn, data_minus_append]
    unfold pyIntCore
    rw [if_pos (by rfl)]
    show (decodeDigits (natToStr n.natAbs).data).map (fun m => -(m : Int)) = some n
    rw [decodeDigits_natToStr]
    show some (-((n.natAbs : Nat) : Int)) = some n
    have h : -((n.natAbs : Nat) : Int) = n := by omega
    rw [h]
  · rw [if_neg hn]
    have h := pyIntCore_natToStr n.natAbs
    rw [h]
    have h2 : ((n.natAbs : Nat) : Int) = n := by omega
    rw [h2]

theorem pyFloatI_floatStrI (n : Int) : pyFloatI (floatStrI n) = some n := by
  unfold pyFloatI floatStrI
  have hdata : (intStr n ++ ".0").data = (intStr n).data ++ ['.', '0'] := by
    cases hh : intStr n
    rfl
  simp only [hdata]
  have hlen : ((intStr n).data ++ ['.', '0']).length = (intStr n).data.length + 2 := by
    simp
  rw [if_pos]
  · have h1 : (intStr n).data.length + 2 - 2 = (intStr n).data.length := by omega
    rw [hlen, h1, List.take_left]
    have := pyInt_intStr n
    unfold pyInt at this
    exact this
  · constructor
    · omega
    · rw [hlen]
      have h1 : (intStr n).data.length + 2 - 2 = (intStr n).data.length := by omega
      rw [h1, List.drop_left]

/-! ## SHA-256 and HMAC-SHA256 (FIPS 180-4, RFC 2104), over byte lists.
This models hashlib.sha256 and hmac.new(key, msg, hashlib.sha256) as used by
validate_init_data in src/backend/main.py.  Words are naturals reduced
modulo 2^32; round constants are given in decimal. -/

/-- Word size modulus 2^32. -/
def two32 : Nat := 4294967296

/-- Reduce a natural to a 32-bit word. -/
def w32 (n : Nat) : Nat := n % two32

/-- Right rotation of a 32-bit word. -/
def rotr32 (x n : Nat) : Nat := w32 ((x >>> n) ||| (x <<< (32 - n)))

/-- Bitwise complement of a 32-bit word. -/
def not32 (x : Nat) : Nat := x ^^^ 4294967295

/-- Choice function of the SHA-256 round. -/
def shaCh (x y z : Nat) : Nat := (x &&& y) ^^^ (not32 x &&& z)

/-- Majority function of the SHA-256 round. -/
def shaMaj (x y z : Nat) : Nat := (x &&& y) ^^^ (x &&& z) ^^^ (y &&& z)

/-- Big sigma-0. -/
def bsig0 (x : Nat) : Nat := rotr32 x 2 ^^^ rotr32 x 13 ^^^ rotr32 x 22

/-- Big sigma-1. -/
def bsig1 (x : Nat) : Nat := rotr32 x 6 ^^^ rotr32 x 11 ^^^ rotr32 x 25

/-- Small sigma-0. -/
def ssig0 (x : Nat) : Nat := rotr32 x 7 ^^^ rotr32 x 18 ^^^ (x >>> 3)

/-- Small sigma-1. -/
def ssig1 (x : Nat) : Nat := rotr32 x 17 ^^^ rotr32 x 19 ^^^ (x >>> 10)

/-- Round constants of SHA-256, decimal form of the FIPS 180-4 table. -/
def shaK : List Nat :=
  [1116352408, 1899447441, 3049323471, 3921009573,
   961987163, 1508970993, 2453635748, 2870763221,
   3624381080, 310598401, 607225278, 1426881987,
   1925078388, 2162078206, 2614888103, 3248222580,
   3835390401, 4022224774, 264347078, 604807628,
   770255983, 1249150122, 1555081692, 1996064986,
   2554220882, 2821834349, 2952996808, 3210313671,
   3336571891, 3584528711, 113926993, 338241895,
   666307205, 773529912, 1294757372, 1396182291,
   1695183700, 1986661051, 2177026350, 2456956037,
   2730485921, 2820302411, 3259730800, 3345764771,
   3516065817, 3600352804, 4094571909, 275423344,
   430227734, 506948616, 659060556, 883997877,
   958139571, 1322822218, 1537002063, 1747873779,
   1955562222, 2024104815, 2227730452, 2361852424,
   2428436474, 2756734187, 3204031479, 3329325298]

/-- Initial hash values of SHA-256, decimal form. -/
def shaH0 : List Nat :=
  [1779033703, 3144134277, 1013904242, 2773480762,
   1359893119, 2600822924, 528734635, 1541459225]

/-- SHA-256 padding: append byte 128, zero bytes up to 56 mod 64, then the
bit length as eight big-endian bytes. -/
def shaPad (msg : List Nat) : List Nat :=
  let len := msg.length
  let bitLen := len * 8
  let zeros := (55 + 64 - len % 64) % 64
  msg ++ [128] ++ List.replicate zeros 0 ++
    (List.range 8).map (fun i => (bitLen >>> ((7 - i) * 8)) % 256)

/-- Split a byte list into 64-byte chunks; the fuel argument is an upper
bound on the number of chunks and never runs out when it starts at the
length of the list (every step consumes at least one byte). -/
def chunks64Aux : Nat → List Nat → List (List Nat)
  | 0, _ => []
  | _, [] => []
  | fuel + 1, l => l.take 64 :: chunks64Aux fuel (l.drop 64)

/-- Split a byte list into 64-byte chunks. -/
def chunks64 (l : List Nat) : List (List Nat) := chunks64Aux l.length l

/-- Combine bytes into 32-bit big-endian words. -/
def bytesToWords : List Nat → List Nat
  | a :: b :: c :: d :: rest => (((a * 256 + b) * 256 + c) * 256 + d) :: bytesToWords rest
  | _ => []

/-- Message schedule: extend sixteen words to sixty-four. -/
def shaSchedule (w16 : List Nat) : List Nat :=
  (List.range 48).foldl (fun w _ =>
    let n := w.length
    let x := ssig1 (w.getD (n - 2) 0) + w.getD (n - 7) 0 +
             ssig0 (w.getD (n - 15) 0) + w.getD (n - 16) 0
    w ++ [w32 x]) w16

/-- One SHA-256 compression of a 64-byte block into the running state. -/
def shaCompress (h : List Nat) (block : List Nat) : List Nat :=
  let w := shaSchedule (bytesToWords block)
  let s := (List.range 64).foldl (fun st t =>
    match st with
    | [a, b, c, d, e, f, g, hh] =>
      let t1 := w32 (hh + bsig1 e + shaCh e f g + shaK.getD t 0 + w.getD t 0)
      let t2 := w32 (bsig0 a + shaMaj a b c)
      [w32 (t1 + t2), a, b, c, w32 (d + t1), e, f, g]
    | other => other) h
  (List.zip h s).map (fun p => w32 (p.1 + p.2))

/-- SHA-256 digest of a byte list, as 32 bytes. -/
def sha256 (msg : List Nat) : List Nat :=
  let hs := (chunks64 (shaPad msg)).foldl shaCompress shaH0
  (hs.map (fun x => [(x >>> 24) % 256, (x >>> 16) % 256, (x >>> 8) % 256, x % 256])).flatten

/-- HMAC-SHA256 of a message under a key, both byte lists (RFC 2104). -/
def hmacSha256 (key msg : List Nat) : List Nat :=
  let k0 := if 64 < key.length then sha256 key else key
  let kpad := k0 ++ List.replicate (64 - k0.length) 0
  let ipad := kpad.map (fun b => b ^^^ 54)
  let opad := kpad.map (fun b => b ^^^ 92)
  sha256 (opad ++ sha256 (ipad ++ msg))

/-- Hexadecimal digit character. -/
def hexDigitChar (n : Nat) : Char :=
  if n < 10 then Char.ofNat (48 + n) else Char.ofNat (87 + n)

/-- Lowercase hexadecimal rendering of a byte list, models hexdigest(). -/
def bytesToHex (bs : List Nat) : String :=
  String.mk ((bs.map (fun b => [hexDigitChar (b / 16), hexDigitChar (b % 16)])).flatten)

/-- UTF-8 encoding of one character, models str.encode(). -/
def utf8Char (c : Char) : List Nat :=
  let n := c.toNat
  if n < 128 then [n]
  else if n < 2048 then [192 + n / 64, 128 + n % 64]
  else if n < 65536 then [224 + n / 4096, 128 + (n / 64) % 64, 128 + n % 64]
  else [240 + n / 262144, 128 + (n / 4096) % 64, 128 + (n / 64) % 64, 128 + n % 64]

/-- UTF-8 byte encoding of a string, models str.encode(). -/
def strBytes (s : String) : List Nat := (s.data.map utf8Char).flatten

/-! ## Query-string parsing: urllib.parse.parse_qs with
keep_blank_values=True, as called by validate_init_data.  Percent escapes
decode to the character of the byte value (exact for ASCII; Python decodes
multi-byte UTF-8 escape runs, which no payload in this development uses). -/

/-- Value of a hexadecimal digit character, if any. -/
def hexVal? (c : Char) : Option Nat :=
  if 48 ≤ c.toNat ∧ c.toNat ≤ 57 then some (c.toNat - 48)
  else if 97 ≤ c.toNat ∧ c.toNat ≤ 102 then some (c.toNat - 87)
  else if 65 ≤ c.toNat ∧ c.toNat ≤ 70 then some (c.toNat - 55)
  else none

/-- Percent-decoding of urllib.parse.unquote: a percent sign followed by two
hexadecimal digits becomes that byte; malformed escapes stay literal. -/
def unquoteChars : List Char → List Char
  | '%' :: a :: b :: rest =>
    match hexVal? a, hexVal? b with
    | some x, some y => Char.ofNat (x * 16 + y) :: unquoteChars rest
    | _, _ => '%' :: unquoteChars (a :: b :: rest)
  | c :: rest => c :: unquoteChars rest
  | [] => []

/-- Percent-decoding on strings, models urllib.parse.unquote. -/
def unquoteStr (s : String) : String := String.mk (unquoteChars s.data)

/-- Plus signs become spaces before unquoting, as in parse_qsl. -/
def plusToSpace (l : List Char) : List Char :=
  l.map (fun c => if c = '+' then ' ' else c)

/-- Split at the first equals sign, none when absent. -/
def splitFirstEq : List Char → Option (List Char × List Char)
  | [] => none
  | c :: rest =>
    if c = '=' then some ([], rest)
    else (splitFirstEq rest).map (fun p => (c :: p.1, p.2))

/-- Split a character list on a separator, keeping empty components. -/
def splitOnChar (sep : Char) : List Char → List (List Char)
  | [] => [[]]
  | c :: rest =>
    let r := splitOnChar sep rest
    if c = sep then [] :: r
    else
      match r with
      | h :: t => (c :: h) :: t
      | [] => [[c]]

/-- One name=value item of parse_qsl with keep_blank_values=True: empty
items are dropped, an item without an equals sign keeps a blank value. -/
def parseItem (item : List Char) : Option (String × String) :=
  if item = [] then none
  else
    match splitFirstEq item with
    | some (n, v) =>
      some (String.mk (unquoteChars (plusToSpace n)), String.mk (unquoteChars (plusToSpace v)))
    | none => some (String.mk (unquoteChars (plusToSpace item)), "")

/-- urllib.parse.parse_qsl with keep_blank_values=True. -/
def parse_qsl (qs : String) : List (String × String) :=
  (splitOnChar '&' qs.data).filterMap parseItem

/-- Group one pair into the dictionary, appending to an existing key. -/
def qsAdd (acc : List (String × List String)) (kv : String × String) :
    List (String × List String) :=
  if acc.any (fun e => e.1 = kv.1) then
    acc.map (fun e => if e.1 = kv.1 then (e.1, e.2 ++ [kv.2]) else e)
  else acc ++ [(kv.1, [kv.2])]

/-- urllib.parse.parse_qs with keep_blank_values=True: a dictionary from
key to the list of its values, in first-occurrence order. -/
def parse_qs (qs : String) : List (String × List String) :=
  (parse_qsl qs).foldl qsAdd []

/-- Dictionary lookup, models parsed.get(k). -/
def qsGet (p : List (String × List String)) (k : String) : Option (List String) :=
  (p.find? (fun e => e.1 = k)).map (fun e => e.2)

/-- Models parsed.get(k, [d])[0]: first value of the key, or the default. -/
def qsFirst (p : List (String × List String)) (k : String) (d : String) : String :=
  match qsGet p k with
  | some (v :: _) => v
  | some [] => d
  | none => d

/-- Lexicographic comparison of character lists by code point, the order of
Python string sorting. -/
def charListLe : List Char → List Char → Bool
  | [], _ => true
  | _ :: _, [] => false
  | a :: as, b :: bs =>
    if a.toNat < b.toNat then true
    else if b.toNat < a.toNat then false
    else charListLe as bs

/-- String comparison used by sorted(). -/
def strLeB (a b : String) : Bool := charListLe a.data b.data

/-- Insertion into a sorted list of strings. -/
def insertStr (x : String) : List String → List String
  | [] => [x]
  | y :: ys => if strLeB x y then x :: y :: ys else y :: insertStr x ys

/-- Models Python sorted() on a list of strings. -/
def sortStrs : List String → List String
  | [] => []
  | x :: xs => insertStr x (sortStrs xs)

/-! ## Trust Validator: validate_init_data and require_telegram from
src/backend/main.py (lines 35-79).  TELEGRAM_BOT_TOKEN and the evaluation
time are fields of the environment; parseUser is the environment parameter
standing for json.loads applied to the unquoted user field and read as an
identity dictionary, with none modelling a raised exception. -/

/-- Identity dictionary decoded from the user field: models the Python dict
returned by validate_init_data, restricted to the keys the endpoints read. -/
structure TgUser where
  id : Option Int
  username : Option String
  first_name : Option String
deriving DecidableEq, Repr

/-- The empty identity dictionary, Python literal braces-empty dict. -/
def emptyTgUser : TgUser := { id := none, username := none, first_name := none }

/-- Process environment of main.py: the configured bot token, the current
time in whole seconds, and the JSON decoder for the user field. -/
structure Env where
  telegram_bot_token : String
  now : Int
  parseUser : String → Option TgUser

/-- HTTP error raised by fastapi.HTTPException. -/
structure HttpErr where
  status : Int
  detail : String
deriving DecidableEq, Repr

/-- Hash field of the parsed payload: parsed.get("hash", [""])[0]
(main.py line 41). -/
def receivedHashOf (s : String) : String := qsFirst (parse_qs s) "hash" ""

/-- String under auth_date: parsed.get("auth_date", ["0"])[0]
(main.py line 45). -/
def authDateStrOf (s : String) : String := qsFirst (parse_qs s) "auth_date" "0"

/-- String under user: parsed.get("user", [""])[0] (main.py line 62). -/
def userJsonOf (s : String) : String := qsFirst (parse_qs s) "user" ""

/-- Check string of main.py lines 49-54: all keys except hash, sorted, as
key=value pairs joined with a newline; every key takes its first value. -/
def checkStringOf (s : String) : String :=
  let parsed := parse_qs s
  let keys := (sortStrs (parsed.map (fun e => e.1))).filter (fun k => k ≠ "hash")
  String.intercalate "\n" (keys.map (fun k => k ++ "=" ++ qsFirst parsed k ""))

/-- Computed hash of main.py lines 56-57: the secret key is
HMAC_SHA256(key="WebAppData", message=botToken), and the result is the
hexadecimal HMAC_SHA256 of the check string under that secret key. -/
def computedHashOf (token : String) (s : String) : String :=
  let secret_key := hmacSha256 (strBytes "WebAppData") (strBytes token)
  bytesToHex (hmacSha256 secret_key (strBytes (checkStringOf s)))

/-- validate_init_data of main.py lines 35-67.  Returns the decoded user
dictionary on success and none on any failure (the Python function returns
None, also for every exception raised inside the try block). -/
def validate_init_data (env : Env) (init_data : String) : Option TgUser :=
  if env.telegram_bot_token = "" ∨ init_data = "" then none
  else
    let received_hash := receivedHashOf init_data
    if received_hash = "" then none
    else
      match pyInt (authDateStrOf init_data) with
      | none => none
      | some auth_date =>
        if 86400 < env.now - auth_date then none
        else
          if computedHashOf env.telegram_bot_token init_data ≠ received_hash then none
          else
            let user_json := userJsonOf init_data
            if user_json ≠ "" then env.parseUser (unquoteStr user_json)
            else some emptyTgUser

/-- require_telegram of main.py lines 70-79: open mode when the token is
not configured, 403 when the header is missing or empty, 403 when
validate_init_data rejects, and the user dictionary otherwise. -/
def require_telegram (env : Env) (init_data : Option String) : Except HttpErr TgUser :=
  if env.telegram_bot_token = "" then .ok emptyTgUser
  else if init_data = none ∨ init_data = some "" then
    .error ⟨403, "Missing Telegram authorization"⟩
  else
    match validate_init_data env (init_data.getD "") with
    | none => .error ⟨403, "Invalid Telegram authorization"⟩
    | some u => .ok u

/-! ## Usage Store: src/backend/database.py.  The users table is a list of
rows; the SQL statements of the source are transcribed statement by
statement.  The SQLite backend reads typed values directly; the Turso
backend receives every cell of a SELECT response as an optional string
(cell.get("value") in _turso_execute) and coerces it back through
_turso_row_to_dict.  A none result models an uncaught Python exception. -/

/-- One row of the users table (CREATE_TABLE_SQL, database.py lines 19-28).
Booleans are INTEGER columns, timestamps REAL columns at whole seconds. -/
structure UserRow where
  telegram_id : Int
  username : String
  first_name : String
  is_banned : Int
  is_pro : Int
  requests_used : Int
  period_start : Int
  created_at : Int
deriving DecidableEq, Repr

/-- The users table. -/
abbrev Db := List UserRow

/-- SELECT * FROM users WHERE telegram_id = ?. -/
def dbFind (db : Db) (tid : Int) : Option UserRow :=
  db.find? (fun r => r.telegram_id = tid)

/-- UPDATE of the rows with the given telegram_id. -/
def dbUpdateRow (db : Db) (tid : Int) (f : UserRow → UserRow) : Db :=
  db.map (fun r => if r.telegram_id = tid then f r else r)

/-- FREE_LIMIT of database.py line 11. -/
def FREE_LIMIT : Int := 10

/-- FREE_COOLDOWN_DAYS of database.py line 12. -/
def FREE_COOLDOWN_DAYS : Int := 7

/-- A SELECT row as the Turso HTTP backend surfaces it: one optional string
per column, in schema order (cell.get("value") in _turso_execute). -/
def rowToCells (r : UserRow) : List (Option String) :=
  [some (intStr r.telegram_id), some r.username, some r.first_name,
   some (intStr r.is_banned), some (intStr r.is_pro), some (intStr r.requests_used),
   some (floatStrI r.period_start), some (floatStrI r.created_at)]

/-- Coercion int(val) if val is not None else 0 of _turso_row_to_dict;
none models a raised ValueError. -/
def cellInt (c : Option String) : Option Int :=
  match c with
  | none => some 0
  | some s => pyInt s

/-- Coercion float(val) if val is not None else 0.0 of _turso_row_to_dict. -/
def cellFloat (c : Option String) : Option Int :=
  match c with
  | none => some 0
  | some s => pyFloatI s

/-- Text columns are kept as they are by _turso_row_to_dict; a NULL text
cell cannot occur under this schema and is mapped to the empty string. -/
def cellText (c : Option String) : String := c.getD ""

/-- _turso_row_to_dict of database.py lines 66-75, on a SELECT * row:
telegram_id, is_banned, is_pro and requests_used become integers,
period_start and created_at become floats, the rest stays text. -/
def turso_row_to_dict (cells : List (Option String)) : Option UserRow :=
  match cells with
  | [c0, c1, c2, c3, c4, c5, c6, c7] =>
    match cellInt c0, cellInt c3, cellInt c4, cellInt c5, cellFloat c6, cellFloat c7 with
    | some tid, some ib, some ip, some ru, some ps, some ca =>
      some { telegram_id := tid, username := cellText c1, first_name := cellText c2,
             is_banned := ib, is_pro := ip, requests_used := ru,
             period_start := ps, created_at := ca }
    | _, _, _, _, _, _ => none
  | _ => none

/-- _sqlite_get_or_create_user of database.py lines 197-223: select; when
found, opportunistically update nonempty profile fields and re-select;
otherwise insert a fresh row and re-select.  A failing re-select would make
dict(None) raise in Python, modelled by none. -/
def sqlite_get_or_create_user (db : Db) (tid : Int) (username first_name : String)
    (now : Int) : Option (Db × UserRow) :=
  match dbFind db tid with
  | some row =>
    if username ≠ "" ∨ first_name ≠ "" then
      let db' := dbUpdateRow db tid (fun r =>
        { r with username := if username ≠ "" then username else row.username,
                 first_name := if first_name ≠ "" then first_name else row.first_name })
      match dbFind db' tid with
      | none => none
      | some row' => some (db', row')
    else some (db, row)
  | none =>
    let row : UserRow :=
      { telegram_id := tid, username := username, first_name := first_name,
        is_banned := 0, is_pro := 0, requests_used := 0,
        period_start := now, created_at := now }
    let db' := db ++ [row]
    match dbFind db' tid with
    | none => none
    | some row' => some (db', row')

/-- _turso_get_or_create_user of database.py lines 228-246: the same SQL
sequence, but every selected row passes through the optional-string cells
and _turso_row_to_dict, and the opportunistic update reads the coerced
dictionary. -/
def turso_get_or_create_user (db : Db) (tid : Int) (username first_name : String)
    (now : Int) : Option (Db × UserRow) :=
  match dbFind db tid with
  | some row0 =>
    match turso_row_to_dict (rowToCells row0) with
    | none => none
    | some user =>
      if username ≠ "" ∨ first_name ≠ "" then
        let db' := dbUpdateRow db tid (fun r =>
          { r with username := if username ≠ "" then username else user.username,
                   first_name := if first_name ≠ "" then first_name else user.first_name })
        match dbFind db' tid with
        | none => none
        | some row1 => turso_row_to_dict (rowToCells row1) |>.map (fun u1 => (db', u1))
      else some (db, user)
  | none =>
    let row : UserRow :=
      { telegram_id := tid, username := username, first_name := first_name,
        is_banned := 0, is_pro := 0, requests_used := 0,
        period_start := now, created_at := now }
    let db' := db ++ [row]
    match dbFind db' tid with
    | none => none
    | some row1 => turso_row_to_dict (rowToCells row1) |>.map (fun u1 => (db', u1))

/-- get_or_create_user of database.py lines 92-95: backend dispatch on the
process-wide _use_turso flag. -/
def get_or_create_user (useTurso : Bool) (db : Db) (tid : Int)
    (username first_name : String) (now : Int) : Option (Db × UserRow) :=
  if useTurso then turso_get_or_create_user db tid username first_name now
  else sqlite_get_or_create_user db tid username first_name now

/-- UPDATE users SET requests_used = requests_used + 1 WHERE telegram_id = ?
(increment_usage, database.py lines 125-135; both backends submit this same
statement). -/
def increment_usage (db : Db) (tid : Int) : Db :=
  dbUpdateRow db tid (fun r => { r with requests_used := r.requests_used + 1 })

/-- UPDATE users SET is_pro = ? WHERE telegram_id = ? (set_user_pro,
database.py lines 153-164). -/
def set_user_pro (db : Db) (tid : Int) (v : Bool) : Db :=
  dbUpdateRow db tid (fun r => { r with is_pro := if v then 1 else 0 })

/-- UPDATE users SET is_banned = ? WHERE telegram_id = ? (set_user_banned,
database.py lines 167-178). -/
def set_user_banned (db : Db) (tid : Int) (v : Bool) : Db :=
  dbUpdateRow db tid (fun r => { r with is_banned := if v then 1 else 0 })

/-- UPDATE users SET requests_used = 0, period_start = ? WHERE
telegram_id = ? (reset_user_requests, database.py lines 181-192, and the
read-time reset inside check_can_solve, lines 108-117). -/
def reset_requests_at (db : Db) (tid : Int) (now : Int) : Db :=
  dbUpdateRow db tid (fun r => { r with requests_used := 0, period_start := now })

/-! ## Quota Policy Engine: check_can_solve of database.py lines 98-122. -/

/-- Remaining allowance of a decision: an integer or the string
"unlimited". -/
inductive Remaining where
  | num (n : Int)
  | unlimited
deriving DecidableEq, Repr

/-- Decision dictionary returned by check_can_solve. -/
structure Decision where
  allowed : Bool
  remaining : Remaining
  reason : String
deriving DecidableEq, Repr

/-- check_can_solve of database.py lines 98-122: get or create the record;
banned wins, then pro; otherwise period_start or now (a zero timestamp is
falsy), a read-time reset once the cooldown window has elapsed, and the
remaining free allowance decides. -/
def check_can_solve (useTurso : Bool) (db : Db) (tid : Int) (now : Int) :
    Option (Db × Decision) :=
  match get_or_create_user useTurso db tid "" "" now with
  | none => none
  | some (db1, user) =>
    if user.is_banned ≠ 0 then
      some (db1, { allowed := false, remaining := .num 0, reason := "banned" })
    else if user.is_pro ≠ 0 then
      some (db1, { allowed := true, remaining := .unlimited, reason := "pro" })
    else
      let period_start := if user.period_start = 0 then now else user.period_start
      let st :=
        if FREE_COOLDOWN_DAYS * 86400 ≤ now - period_start then
          (reset_requests_at db1 tid now, 0)
        else (db1, user.requests_used)
      let remaining := max 0 (FREE_LIMIT - st.2)
      if remaining ≤ 0 then
        some (st.1, { allowed := false, remaining := .num 0, reason := "limit" })
      else some (st.1, { allowed := true, remaining := .num remaining, reason := "free" })

/-! ## Endpoint gates of src/backend/main.py: api_user (lines 246-268) and
the solve prologue up to the downstream AI call (lines 272-295).  The
result none models an uncaught exception; an ok value of solve_gate is the
identity (possibly none) under which the AI call then proceeds. -/

/-- Python truthiness of an optional integer: present and nonzero. -/
def truthyId (o : Option Int) : Bool :=
  match o with
  | some i => decide (i ≠ 0)
  | none => false

/-- Python truthiness of an optional string: present and nonempty. -/
def truthyStr (o : Option String) : Bool :=
  match o with
  | some s => decide (s ≠ "")
  | none => false

/-- Response body of /api/user (main.py lines 258-268). -/
structure UserOut where
  telegram_id : Int
  username : String
  first_name : String
  is_pro : Bool
  is_banned : Bool
  requests_used : Int
  remaining : Remaining
  allowed : Bool
  reason : String
deriving DecidableEq, Repr

/-- Body of api_user after the authentication and identity checks
(main.py lines 256-268). -/
def api_user_core (useTurso : Bool) (db : Db) (tid : Int)
    (username first_name : String) (now : Int) :
    Option (Db × Except HttpErr UserOut) :=
  match get_or_create_user useTurso db tid username first_name now with
  | none => none
  | some (db1, user) =>
    match check_can_solve useTurso db1 tid now with
    | none => none
    | some (db2, limits) =>
      some (db2, .ok
        { telegram_id := user.telegram_id, username := user.username,
          first_name := user.first_name, is_pro := user.is_pro ≠ 0,
          is_banned := user.is_banned ≠ 0, requests_used := user.requests_used,
          remaining := limits.remaining, allowed := limits.allowed,
          reason := limits.reason })

/-- api_user of main.py lines 246-268: authenticate, reject on a truthy
claimed id different from the query id, then read the record and the
decision. -/
def api_user (env : Env) (useTurso : Bool) (db : Db) (tid : Int)
    (username first_name : String) (initData : Option String) :
    Option (Db × Except HttpErr UserOut) :=
  match require_telegram env initData with
  | .error e => some (db, .error e)
  | .ok tg =>
    if truthyId tg.id && decide (tg.id.getD 0 ≠ tid) then
      some (db, .error ⟨403, "User ID mismatch"⟩)
    else api_user_core useTurso db tid username first_name env.now

/-- Request body of /api/solve (main.py lines 160-164). -/
structure SolveReq where
  text : Option String
  image_base64 : Option String
  telegram_id : Option Int
deriving DecidableEq, Repr

/-- Body of solve after authentication, identity check and the id fill-in
(main.py lines 279-295): provider guard, input guard, then the quota gate;
an ok result carries the identity under which the AI call proceeds. -/
def solve_core (useTurso : Bool) (hasClient : Bool) (db : Db) (req : SolveReq)
    (now : Int) : Option (Db × Except HttpErr (Option Int)) :=
  if ¬hasClient then
    some (db, .error ⟨500, "AI provider is not configured."⟩)
  else if ¬(truthyStr req.text || truthyStr req.image_base64) then
    some (db, .error ⟨400, "Either text or image must be provided."⟩)
  else if truthyId req.telegram_id then
    match check_can_solve useTurso db (req.telegram_id.getD 0) now with
    | none => none
    | some (db1, limits) =>
      if ¬limits.allowed then
        if limits.reason = "banned" then
          some (db1, .error ⟨403, "Ваш аккаунт заблокирован."⟩)
        else
          some (db1, .error ⟨429,
            "Лимит запросов исчерпан. Подождите 7 дней или оформите Pro-подписку."⟩)
      else some (db1, .ok req.telegram_id)
  else some (db, .ok req.telegram_id)

/-- solve of main.py lines 272-295, up to the downstream AI call:
authenticate, reject when both the truthy claimed id and the truthy request
id disagree, fill a missing request id from the claim, then the body. -/
def solve_gate (env : Env) (useTurso : Bool) (hasClient : Bool) (db : Db)
    (req : SolveReq) (initData : Option String) :
    Option (Db × Except HttpErr (Option Int)) :=
  match require_telegram env initData with
  | .error e => some (db, .error e)
  | .ok tg =>
    if truthyId tg.id && truthyId req.telegram_id &&
        decide (tg.id.getD 0 ≠ req.telegram_id.getD 0) then
      some (db, .error ⟨403, "User ID mismatch"⟩)
    else
      solve_core useTurso hasClient db
        { req with telegram_id :=
            if ¬truthyId req.telegram_id && truthyId tg.id then tg.id
            else req.telegram_id }
        env.now

/-! ## Store lemmas: the Turso cell coercion is the identity on rows of
this schema, and the two backends agree operation by operation. -/

theorem turso_row_to_dict_rowToCells (r : UserRow) :
    turso_row_to_dict (rowToCells r) = some r := by
  simp [turso_row_to_dict, rowToCells, cellInt, cellFloat, cellText,
    pyInt_intStr, pyFloatI_floatStrI]

theorem dbFind_dbUpdateRow (db : Db) (tid : Int) (f : UserRow → UserRow)
    (hf : ∀ r, (f r).telegram_id = r.telegram_id) :
    dbFind (dbUpdateRow db tid f) tid = (dbFind db tid).map f := by
  induction db with
  | nil => rfl
  | cons r rest ih =>
    unfold dbFind dbUpdateRow
    unfold dbFind dbUpdateRow at ih
    by_cases h : r.telegram_id = tid
    · simp only [List.map_cons, if_pos h, List.find?]
      have h1 : (decide ((f r).telegram_id = tid)) = true := by
        rw [hf r]; exact decide_eq_true h
      have h2 : (decide (r.telegram_id = tid)) = true := decide_eq_true h
      rw [h1, h2]
      rfl
    · simp only [List.map_cons, if_neg h, List.find?]
      have h2 : (decide (r.telegram_id = tid)) = false := decide_eq_false h
      rw [h2]
      exact ih

theorem dbFind_append_right (db : Db) (tid : Int) (row : UserRow)
    (h : dbFind db tid = none) (hrow : row.telegram_id = tid) :
    dbFind (db ++ [row]) tid = some row := by
  induction db with
  | nil =>
    unfold dbFind
    simp [List.find?, decide_eq_true hrow]
  | cons r rest ih =>
    unfold dbFind at *
    simp only [List.cons_append, List.find?]
    by_cases hr : r.telegram_id = tid
    · rw [List.find?] at h
      rw [decide_eq_true hr] at h
      exact absurd h (by simp)
    · rw [decide_eq_false hr]
      apply ih
      rw [List.find?] at h
      rw [decide_eq_false hr] at h
      exact h

theorem turso_get_or_create_eq (db : Db) (tid : Int) (u f : String) (now : Int) :
    turso_get_or_create_user db tid u f now = sqlite_get_or_create_user db tid u f now := by
  unfold turso_get_or_create_user sqlite_get_or_create_user
  cases hfind : dbFind db tid with
  | none =>
    simp only
    cases h2 : dbFind (db ++ [(⟨tid, u, f, 0, 0, 0, now, now⟩ : UserRow)]) tid with
    | none => simp [h2]
    | some row1 => simp [h2, turso_row_to_dict_rowToCells]
  | some row =>
    simp only [turso_row_to_dict_rowToCells]
    by_cases hc : u ≠ "" ∨ f ≠ ""
    · simp only [if_pos hc]
      cases h2 : dbFind (dbUpdateRow db tid (fun r =>
          { r with username := if u ≠ "" then u else row.username,
                   first_name := if f ≠ "" then f else row.first_name })) tid with
      | none => simp [h2]
      | some row1 => simp [h2, turso_row_to_dict_rowToCells]
    · simp only [if_neg hc]

theorem get_or_create_user_eq_sqlite (useTurso : Bool) (db : Db) (tid : Int)
    (u f : String) (now : Int) :
    get_or_create_user useTurso db tid u f now = sqlite_get_or_create_user db tid u f now := by
  unfold get_or_create_user
  cases useTurso with
  | false => simp
  | true => simp [turso_get_or_create_eq]

/-! ## Operation sequences over the two backends (claim about backend
equivalence).  A step returns the possibly changed table and, for a
get-or-create, the record handed to the caller. -/

/-- One Usage Store operation. -/
inductive StoreOp where
  | getOrCreate (tid : Int) (username first_name : String) (now : Int)
  | incrementUsage (tid : Int)
  | setPro (tid : Int) (v : Bool)
  | setBanned (tid : Int) (v : Bool)
  | resetRequests (tid : Int) (now : Int)
deriving DecidableEq, Repr

/-- One operation against the embedded SQLite backend. -/
def sqliteStep (db : Db) : StoreOp → Option (Db × Option UserRow)
  | .getOrCreate tid u f now =>
    (sqlite_get_or_create_user db tid u f now).map (fun p => (p.1, some p.2))
  | .incrementUsage tid => some (increment_usage db tid, none)
  | .setPro tid v => some (set_user_pro db tid v, none)
  | .setBanned tid v => some (set_user_banned db tid v, none)
  | .resetRequests tid now => some (reset_requests_at db tid now, none)

/-- One operation against the remote Turso backend: the same statements,
with selected rows passing through the optional-string cells. -/
def tursoStep (db : Db) : StoreOp → Option (Db × Option UserRow)
  | .getOrCreate tid u f now =>
    (turso_get_or_create_user db tid u f now).map (fun p => (p.1, some p.2))
  | .incrementUsage tid => some (increment_usage db tid, none)
  | .setPro tid v => some (set_user_pro db tid v, none)
  | .setBanned tid v => some (set_user_banned db tid v, none)
  | .resetRequests tid now => some (reset_requests_at db tid now, none)

/-- A sequence of operations through one backend, collecting the records
returned to the caller. -/
def runStore (step : Db → StoreOp → Option (Db × Option UserRow)) :
    Db → List StoreOp → Option (Db × List (Option UserRow))
  | db, [] => some (db, [])
  | db, op :: ops =>
    match step db op with
    | none => none
    | some (db1, r) =>
      match runStore step db1 ops with
      | none => none
      | some (db2, rs) => some (db2, r :: rs)

theorem tursoStep_eq_sqliteStep (db : Db) (op : StoreOp) :
    tursoStep db op = sqliteStep db op := by
  cases op with
  | getOrCreate tid u f now => simp [tursoStep, sqliteStep, turso_get_or_create_eq]
  | incrementUsage tid => rfl
  | setPro tid v => rfl
  | setBanned tid v => rfl
  | resetRequests tid now => rfl

theorem runStore_turso_eq_sqlite (db : Db) (ops : List StoreOp) :
    runStore tursoStep db ops = runStore sqliteStep db ops := by
  induction ops generalizing db with
  | nil => rfl
  | cons op rest ih =>
    unfold runStore
    rw [tursoStep_eq_sqliteStep]
    cases sqliteStep db op with
    | none => rfl
    | some p =>
      obtain ⟨db1, r⟩ := p
      dsimp only
      rw [ih db1]

/-- Apply a function a fixed number of times; used to express repeated
recordUsage calls. -/
def applyN {α : Type} (n : Nat) (f : α → α) (a : α) : α :=
  match n with
  | 0 => a
  | m + 1 => applyN m f (f a)

theorem sqlite_get_or_create_found (db : Db) (tid now : Int) (r : UserRow)
    (h : dbFind db tid = some r) :
    sqlite_get_or_create_user db tid "" "" now = some (db, r) := by
  unfold sqlite_get_or_create_user
  rw [h]
  simp

theorem get_or_create_found (useTurso : Bool) (db : Db) (tid now : Int) (r : UserRow)
    (h : dbFind db tid = some r) :
    get_or_create_user useTurso db tid "" "" now = some (db, r) := by
  rw [get_or_create_user_eq_sqlite]
  exact sqlite_get_or_create_found db tid now r h

theorem applyN_increment (n : Nat) (tid : Int) (u f : String) (b p ru ps ca : Int) :
    applyN n (fun d => increment_usage d tid) [⟨tid, u, f, b, p, ru, ps, ca⟩] =
    [⟨tid, u, f, b, p, ru + (n : Int), ps, ca⟩] := by
  induction n generalizing ru with
  | zero => simp [applyN]
  | succ m ih =>
    unfold applyN
    have h1 : increment_usage [(⟨tid, u, f, b, p, ru, ps, ca⟩ : UserRow)] tid =
        [⟨tid, u, f, b, p, ru + 1, ps, ca⟩] := by
      simp [increment_usage, dbUpdateRow]
    rw [h1, ih]
    have h2 : ru + 1 + (m : Int) = ru + ((m + 1 : Nat) : Int) := by push_cast; ring
    rw [h2]

theorem sqlite_create_fresh (tid t0 : Int) :
    sqlite_get_or_create_user [] tid "" "" t0 =
      some ([⟨tid, "", "", 0, 0, 0, t0, t0⟩], ⟨tid, "", "", 0, 0, 0, t0, t0⟩) := by
  unfold sqlite_get_or_create_user
  simp [dbFind, List.find?]

/-! ## Validator lemmas -/

theorem val_expiry (env : Env) (s : String) (a : Int)
    (hpy : pyInt (authDateStrOf s) = some a) (hexp : 86400 < env.now - a) :
    validate_init_data env s = none := by
  unfold validate_init_data
  by_cases h1 : env.telegram_bot_token = "" ∨ s = ""
  · rw [if_pos h1]
  · rw [if_neg h1]
    dsimp only
    by_cases h2 : receivedHashOf s = ""
    · rw [if_pos h2]
    · rw [if_neg h2, hpy]
      dsimp only
      rw [if_pos hexp]

theorem val_sound (env : Env) (s : String) (u : TgUser)
    (h : validate_init_data env s = some u) :
    computedHashOf env.telegram_bot_token s = receivedHashOf s := by
  unfold validate_init_data at h
  split at h
  · exact absurd h (by simp)
  · dsimp only at h
    split at h
    · exact absurd h (by simp)
    · split at h
      · exact absurd h (by simp)
      · split at h
        · exact absurd h (by simp)
        · split at h
          · exact absurd h (by simp)
          · next hne => exact not_ne_iff.mp hne

theorem val_complete (env : Env) (s : String) (a : Int)
    (ht : env.telegram_bot_token ≠ "") (hs : s ≠ "")
    (hh : receivedHashOf s ≠ "")
    (hpy : pyInt (authDateStrOf s) = some a) (hexp : env.now - a ≤ 86400)
    (huser : userJsonOf s = "" ∨ (env.parseUser (unquoteStr (userJsonOf s))).isSome) :
    (validate_init_data env s).isSome ↔
      computedHashOf env.telegram_bot_token s = receivedHashOf s := by
  unfold validate_init_data
  rw [if_neg (by simp [ht, hs]), if_neg hh, hpy]
  dsimp only
  rw [if_neg (by omega)]
  constructor
  · intro hsome
    by_cases hc : computedHashOf env.telegram_bot_token s = receivedHashOf s
    · exact hc
    · rw [if_pos hc] at hsome
      exact absurd hsome (by simp)
  · intro hc
    rw [if_neg (not_not.mpr hc)]
    by_cases hj : userJsonOf s = ""
    · rw [if_neg (not_not.mpr hj)]
      simp
    · rw [if_pos hj]
      rcases huser with h | h
      · exact absurd h hj
      · exact h

theorem val_no_user_field (env : Env) (s : String) (u : TgUser)
    (h : validate_init_data env s = some u)
    (hq : qsGet (parse_qs s) "user" = none) : u = emptyTgUser := by
  have huj : userJsonOf s = "" := by
    unfold userJsonOf qsFirst
    rw [hq]
  unfold validate_init_data at h
  split at h
  · exact absurd h (by simp)
  · dsimp only at h
    split at h
    · exact absurd h (by simp)
    · split at h
      · exact absurd h (by simp)
      · split at h
        · exact absurd h (by simp)
        · split at h
          · exact absurd h (by simp)
          · rw [huj, if_neg (by simp)] at h
            exact (Option.some.injEq _ _ ▸ h).symm

theorem req_invalid (env : Env) (s : String)
    (ht : env.telegram_bot_token ≠ "") (hs : s ≠ "")
    (hv : validate_init_data env s = none) :
    require_telegram env (some s) = .error ⟨403, "Invalid Telegram authorization"⟩ := by
  unfold require_telegram
  rw [if_neg ht, if_neg (by simp [hs])]
  dsimp only [Option.getD]
  rw [hv]

theorem req_missing (env : Env) (ht : env.telegram_bot_token ≠ "") :
    require_telegram env none = .error ⟨403, "Missing Telegram authorization"⟩ ∧
    require_telegram env (some "") = .error ⟨403, "Missing Telegram authorization"⟩ := by
  unfold require_telegram
  constructor
  · rw [if_neg ht, if_pos (by simp)]
  · rw [if_neg ht, if_pos (by simp)]

theorem api_user_mismatch (env : Env) (useTurso : Bool) (db : Db) (tid : Int)
    (un fn : String) (initData : Option String) (tg : TgUser) (i : Int)
    (hreq : require_telegram env initData = .ok tg) (hid : tg.id = some i)
    (hi : i ≠ 0) (hneq : i ≠ tid) :
    api_user env useTurso db tid un fn initData =
      some (db, .error ⟨403, "User ID mismatch"⟩) := by
  unfold api_user
  rw [hreq]
  dsimp only
  rw [hid]
  simp [truthyId, hi, hneq]

theorem solve_mismatch (env : Env) (useTurso hasClient : Bool) (db : Db)
    (req : SolveReq) (initData : Option String) (tg : TgUser) (i j : Int)
    (hreq : require_telegram env initData = .ok tg) (hid : tg.id = some i)
    (hi : i ≠ 0) (hrid : req.telegram_id = some j) (hj : j ≠ 0) (hneq : i ≠ j) :
    solve_gate env useTurso hasClient db req initData =
      some (db, .error ⟨403, "User ID mismatch"⟩) := by
  unfold solve_gate
  rw [hreq]
  dsimp only
  rw [hid, hrid]
  simp [truthyId, hi, hj, hneq]

theorem api_user_no_claim_id (env : Env) (useTurso : Bool) (db : Db) (tid : Int)
    (un fn : String) (initData : Option String) (tg : TgUser)
    (hreq : require_telegram env initData = .ok tg) (hid : tg.id = none) :
    api_user env useTurso db tid un fn initData =
      api_user_core useTurso db tid un fn env.now := by
  unfold api_user
  rw [hreq]
  dsimp only
  rw [hid]
  simp [truthyId]

theorem solve_no_claim_id (env : Env) (useTurso hasClient : Bool) (db : Db)
    (req : SolveReq) (initData : Option String) (tg : TgUser)
    (hreq : require_telegram env initData = .ok tg) (hid : tg.id = none) :
    solve_gate env useTurso hasClient db req initData =
      solve_core useTurso hasClient db req env.now := by
  obtain ⟨rt, ri, rtid⟩ := req
  unfold solve_gate
  rw [hreq]
  dsimp only
  rw [hid]
  simp [truthyId]

/-! ## Concrete test fixtures.  The hash fields below are the hexadecimal
HMAC-SHA256 values that the implemented pipeline computes for the check
strings "auth_date=100" and "auth_date=100\nuser=u1" under the bot token
"testbot"; they were cross-checked against the Python hmac and hashlib
reference implementations. -/

/-- Concrete stand-in for json.loads on the user field: the text u1 decodes
to the identity dictionary with id 5, everything else raises. -/
def testParseUser : String → Option TgUser :=
  fun s =>
    if s = "u1" then some { id := some 5, username := none, first_name := none } else none

/-- The identity dictionary with id 5. -/
def tgU5 : TgUser := { id := some 5, username := none, first_name := none }

/-- Environment with a configured token, evaluated 86399 seconds after
auth_date 100. -/
def envAccept : Env :=
  { telegram_bot_token := "testbot", now := 86499, parseUser := testParseUser }

/-- Environment with a configured token, evaluated long after expiry of
auth_date 100. -/
def envStale : Env :=
  { telegram_bot_token := "testbot", now := 1000000, parseUser := testParseUser }

/-- Environment with a configured token, evaluated 100 seconds after
auth_date 100. -/
def envUser : Env :=
  { telegram_bot_token := "testbot", now := 200, parseUser := testParseUser }

/-- Environment without a configured token (open mode). -/
def envOpen : Env :=
  { telegram_bot_token := "", now := 200, parseUser := testParseUser }

/-- Correctly signed payload without a user field. -/
def payloadFresh : String :=
  "auth_date=100&hash=302f1ef3a004b941df565d67d6dcd043ca4e188f0a6a689421ca5ec000b110eb"

/-- Correctly signed payload with the user field u1 (identity 5). -/
def payloadUser : String :=
  "auth_date=100&user=u1&hash=209e1c07462bde033fc10c7bc0b76422fabe288a6104e867107da211f6c6562a"

/-! ## Claim theorems -/

/-- Claim C1, amended: acceptance implies that the computed hexadecimal
HMAC-SHA256 of the check string equals the payload hash field (so no
payload with a differing hash field is ever accepted); and among payloads
that pass every other gate (configured token, nonempty payload, hash field
present, parseable and unexpired auth_date, user field absent or
decodable), acceptance holds exactly when the computed hash equals the
received one.  The unamended two-sided claim fails: a payload whose hash
field equals the computed value is still rejected when its auth_date is
expired. -/
theorem claim1_hash_gate :
    (∀ (env : Env) (s : String) (u : TgUser),
      validate_init_data env s = some u →
      computedHashOf env.telegram_bot_token s = receivedHashOf s) ∧
    (∀ (env : Env) (s : String) (a : Int),
      env.telegram_bot_token ≠ "" → s ≠ "" → receivedHashOf s ≠ "" →
      pyInt (authDateStrOf s) = some a → env.now - a ≤ 86400 →
      (userJsonOf s = "" ∨ (env.parseUser (unquoteStr (userJsonOf s))).isSome) →
      ((validate_init_data env s).isSome ↔
        computedHashOf env.telegram_bot_token s = receivedHashOf s)) :=
  ⟨fun env s u h => val_sound env s u h,
   fun env s a ht hs hh hpy hexp huser => val_complete env s a ht hs hh hpy hexp huser⟩

set_option maxRecDepth 40000 in
/-- Counterexample to claim C1 as stated: under the configured token, this
payload carries exactly the computed hash of its check string, yet validate
rejects it (its auth_date is expired), so acceptance is not equivalent to
hash agreement. -/
theorem claim1_hash_gate_counterexample :
    computedHashOf envStale.telegram_bot_token payloadFresh = receivedHashOf payloadFresh ∧
    validate_init_data envStale payloadFresh = none ∧
    envStale.telegram_bot_token ≠ "" := by
  refine ⟨by decide, rfl, by decide⟩

/-- Witness for claim C1 at the fresh fixture payload: every side condition
holds there, so acceptance is equivalent to hash agreement. -/
theorem claim1_hash_gate_witness :
    (validate_init_data envAccept payloadFresh).isSome ↔
      computedHashOf envAccept.telegram_bot_token payloadFresh =
        receivedHashOf payloadFresh :=
  claim1_hash_gate.2 envAccept payloadFresh 100 (by decide) (by decide) (by decide)
    (by decide) (by decide) (Or.inl (by decide))

set_option maxRecDepth 40000 in
/-- Claim C2: any payload whose parsed auth_date lies more than 86400
seconds in the past is rejected, and the fixture payload evaluated exactly
86399 seconds after its auth_date (one second inside the boundary) is
accepted with the empty claim. -/
theorem claim2_expiry :
    (∀ (env : Env) (s : String) (a : Int),
      pyInt (authDateStrOf s) = some a → 86400 < env.now - a →
      validate_init_data env s = none) ∧
    validate_init_data envAccept payloadFresh = some emptyTgUser ∧
    envAccept.now - 100 = 86399 :=
  ⟨fun env s a hpy hexp => val_expiry env s a hpy hexp, rfl, by decide⟩

/-- Witness for claim C2: the fixture payload with auth_date 100 evaluated
at second 1000000 is rejected. -/
theorem claim2_expiry_witness :
    pyInt (authDateStrOf payloadFresh) = some 100 ∧
    86400 < envStale.now - 100 ∧
    validate_init_data envStale payloadFresh = none :=
  ⟨by decide, by decide, claim2_expiry.1 envStale payloadFresh 100 (by decide) (by decide)⟩

/-- Claim C3: with no configured bot token, require_telegram trusts every
request (present, empty or garbage payload alike) and returns the empty
identity claim instead of any authentication failure. -/
theorem claim3_open_mode :
    ∀ (env : Env) (initData : Option String),
      env.telegram_bot_token = "" → require_telegram env initData = .ok emptyTgUser := by
  intro env initData h
  unfold require_telegram
  rw [if_pos h]

/-- Witness for claim C3: garbage and absent payloads are both trusted in
open mode. -/
theorem claim3_open_mode_witness :
    require_telegram envOpen (some "garbage=1&hash=zz") = .ok emptyTgUser ∧
    require_telegram envOpen none = .ok emptyTgUser :=
  ⟨claim3_open_mode envOpen (some "garbage=1&hash=zz") rfl,
   claim3_open_mode envOpen none rfl⟩

/-- Claim C4, amended: every failure inside validate_init_data (missing
hash, unparseable or expired auth_date, hash mismatch, undecodable user
JSON) collapses to the same None result and is surfaced as the same 403
with detail "Invalid Telegram authorization"; but a missing or empty
payload is surfaced as 403 with the distinct detail "Missing Telegram
authorization", so the client can tell an absent payload apart from an
invalid one (the status code alone does not distinguish them). -/
theorem claim4_uniform_failure :
    ∀ (env : Env) (s : String),
      env.telegram_bot_token ≠ "" → s ≠ "" →
      validate_init_data env s = none →
      require_telegram env (some s) = .error ⟨403, "Invalid Telegram authorization"⟩ ∧
      require_telegram env none = .error ⟨403, "Missing Telegram authorization"⟩ ∧
      require_telegram env (some "") = .error ⟨403, "Missing Telegram authorization"⟩ :=
  fun env s ht hs hv =>
    ⟨req_invalid env s ht hs hv, (req_missing env ht).1, (req_missing env ht).2⟩

/-- Counterexample to claim C4 as stated: the empty payload and a payload
without a hash field are both failing inputs, yet their surfaced rejections
differ in the detail string, so the rejection does distinguish a
sub-reason. -/
theorem claim4_uniform_failure_counterexample :
    require_telegram envUser (some "") = .error ⟨403, "Missing Telegram authorization"⟩ ∧
    require_telegram envUser (some "x") = .error ⟨403, "Invalid Telegram authorization"⟩ ∧
    (HttpErr.mk 403 "Missing Telegram authorization" ≠
      HttpErr.mk 403 "Invalid Telegram authorization") :=
  ⟨rfl, rfl, by decide⟩

/-- Witness for claim C4 at a concrete hashless payload. -/
theorem claim4_uniform_failure_witness :
    require_telegram envUser (some "x") = .error ⟨403, "Invalid Telegram authorization"⟩ ∧
    require_telegram envUser none = .error ⟨403, "Missing Telegram authorization"⟩ ∧
    require_telegram envUser (some "") = .error ⟨403, "Missing Telegram authorization"⟩ :=
  claim4_uniform_failure envUser "x" (by decide) (by decide) rfl

/-- Claim C9, amended: whenever the validated claim carries a nonzero id
and the caller supplies a nonzero id that differs (in api_user the query id
is always supplied), the request is rejected with 403 "User ID mismatch" —
an error distinct from both authentication failures — and the store is left
untouched.  The unamended claim fails: a zero caller id in solve is falsy
and bypasses the check entirely. -/
theorem claim9_identity_mismatch :
    (∀ (env : Env) (useTurso : Bool) (db : Db) (tid : Int) (un fn : String)
       (initData : Option String) (tg : TgUser) (i : Int),
      require_telegram env initData = .ok tg → tg.id = some i → i ≠ 0 → i ≠ tid →
      api_user env useTurso db tid un fn initData =
        some (db, .error ⟨403, "User ID mismatch"⟩)) ∧
    (∀ (env : Env) (useTurso hasClient : Bool) (db : Db) (req : SolveReq)
       (initData : Option String) (tg : TgUser) (i j : Int),
      require_telegram env initData = .ok tg → tg.id = some i → i ≠ 0 →
      req.telegram_id = some j → j ≠ 0 → i ≠ j →
      solve_gate env useTurso hasClient db req initData =
        some (db, .error ⟨403, "User ID mismatch"⟩)) ∧
    (HttpErr.mk 403 "User ID mismatch" ≠ ⟨403, "Missing Telegram authorization"⟩ ∧
     HttpErr.mk 403 "User ID mismatch" ≠ ⟨403, "Invalid Telegram authorization"⟩) :=
  ⟨fun env useTurso db tid un fn initData tg i hreq hid hi hneq =>
      api_user_mismatch env useTurso db tid un fn initData tg i hreq hid hi hneq,
   fun env useTurso hasClient db req initData tg i j hreq hid hi hrid hj hneq =>
      solve_mismatch env useTurso hasClient db req initData tg i j hreq hid hi hrid hj hneq,
   by decide, by decide⟩

set_option maxRecDepth 40000 in
/-- Counterexample to claim C9 as stated: the validated claim carries id 5,
the caller supplies the disagreeing id 0, yet solve is not rejected: the
zero id is falsy, the claimed id is adopted, and the store and quota
operations run (the table gains the record for id 5). -/
theorem claim9_identity_mismatch_counterexample :
    require_telegram envUser (some payloadUser) = .ok tgU5 ∧
    tgU5.id = some 5 ∧ (5 : Int) ≠ 0 ∧
    solve_gate envUser false true []
        { text := some "x", image_base64 := none, telegram_id := some 0 }
        (some payloadUser) =
      some ([⟨5, "", "", 0, 0, 0, 200, 200⟩], .ok (some 5)) :=
  ⟨rfl, rfl, by decide, rfl⟩

set_option maxRecDepth 40000 in
/-- Witness for claim C9: claimed id 5 against query id 7 in api_user is
rejected with the mismatch error and no store write. -/
theorem claim9_identity_mismatch_witness :
    api_user envUser false [] 7 "" "" (some payloadUser) =
      some ([], .error ⟨403, "User ID mismatch"⟩) :=
  claim9_identity_mismatch.1 envUser false [] 7 "" "" (some payloadUser) tgU5 5
    rfl rfl (by decide) (by decide)

/-- Claim C10: a payload that verifies but has no user field yields the
empty claim (no id); with an id-less claim the mismatch check in both
api_user and solve is vacuously skipped, so any caller-supplied telegram_id
is accepted as the identity of the request and the bodies run unchanged. -/
theorem claim10_empty_claim_skips_check :
    (∀ (env : Env) (s : String) (u : TgUser),
      validate_init_data env s = some u → qsGet (parse_qs s) "user" = none →
      u = emptyTgUser) ∧
    (∀ (env : Env) (useTurso : Bool) (db : Db) (tid : Int) (un fn : String)
       (initData : Option String) (tg : TgUser),
      require_telegram env initData = .ok tg → tg.id = none →
      api_user env useTurso db tid un fn initData =
        api_user_core useTurso db tid un fn env.now) ∧
    (∀ (env : Env) (useTurso hasClient : Bool) (db : Db) (req : SolveReq)
       (initData : Option String) (tg : TgUser),
      require_telegram env initData = .ok tg → tg.id = none →
      solve_gate env useTurso hasClient db req initData =
        solve_core useTurso hasClient db req env.now) :=
  ⟨fun env s u h hq => val_no_user_field env s u h hq,
   fun env useTurso db tid un fn initData tg hreq hid =>
      api_user_no_claim_id env useTurso db tid un fn initData tg hreq hid,
   fun env useTurso hasClient db req initData tg hreq hid =>
      solve_no_claim_id env useTurso hasClient db req initData tg hreq hid⟩

set_option maxRecDepth 40000 in
/-- Witness for claim C10: the verified user-less fixture payload yields
the empty claim, and api_user for the arbitrary caller id 9 proceeds to its
body instead of raising the mismatch error. -/
theorem claim10_empty_claim_skips_check_witness :
    require_telegram envAccept (some payloadFresh) = .ok emptyTgUser ∧
    api_user envAccept false [] 9 "" "" (some payloadFresh) =
      api_user_core false [] 9 "" "" envAccept.now := by
  have h : require_telegram envAccept (some payloadFresh) = .ok emptyTgUser := rfl
  exact ⟨h, claim10_empty_claim_skips_check.2.1 envAccept false [] 9 "" ""
    (some payloadFresh) emptyTgUser h rfl⟩

/-- Claim C5: for every stored user record, check_can_solve yields the
banned denial whenever is_banned is set, regardless of is_pro and
requests_used; and for every non-banned record with is_pro set it yields
the unlimited pro grant regardless of requests_used.  Ban takes precedence
over pro, on both store backends, with no store write. -/
theorem claim5_ban_over_pro :
    ∀ (useTurso : Bool) (db : Db) (tid now : Int) (u : UserRow),
      dbFind db tid = some u →
      (u.is_banned ≠ 0 →
        check_can_solve useTurso db tid now =
          some (db, { allowed := false, remaining := .num 0, reason := "banned" })) ∧
      (u.is_banned = 0 → u.is_pro ≠ 0 →
        check_can_solve useTurso db tid now =
          some (db, { allowed := true, remaining := .unlimited, reason := "pro" })) := by
  intro useTurso db tid now u hfind
  have hg := get_or_create_found useTurso db tid now u hfind
  constructor
  · intro hb
    unfold check_can_solve
    rw [hg]
    simp [hb]
  · intro hb hp
    unfold check_can_solve
    rw [hg]
    simp [hb, hp]

/-- Witness for claim C5 at a concrete table: a banned pro user with spent
quota is denied as banned; a pro user with spent quota is granted
unlimited. -/
theorem claim5_ban_over_pro_witness :
    check_can_solve false [⟨7, "", "", 1, 1, 99, 100, 100⟩] 7 200 =
      some ([⟨7, "", "", 1, 1, 99, 100, 100⟩],
        { allowed := false, remaining := .num 0, reason := "banned" }) ∧
    check_can_solve false [⟨7, "", "", 0, 1, 99, 100, 100⟩] 7 200 =
      some ([⟨7, "", "", 0, 1, 99, 100, 100⟩],
        { allowed := true, remaining := .unlimited, reason := "pro" }) :=
  ⟨(claim5_ban_over_pro false [⟨7, "", "", 1, 1, 99, 100, 100⟩] 7 200
      ⟨7, "", "", 1, 1, 99, 100, 100⟩ (by decide)).1 (by decide),
   (claim5_ban_over_pro false [⟨7, "", "", 0, 1, 99, 100, 100⟩] 7 200
      ⟨7, "", "", 0, 1, 99, 100, 100⟩ (by decide)).2 (by decide) (by decide)⟩

/-- Claim C6: a freshly created, non-pro, non-banned identity is denied
with reason limit after exactly ten usage increments while the cooldown
window has not elapsed; and whenever the cooldown window has elapsed at
evaluation time, check_can_solve itself writes the reset (requests_used
zero, period_start now) and returns the full free allowance of ten.  All
record timestamps of this system are nonzero (creation and reset always
store the current positive time). -/
theorem claim6_limit_then_reset :
    (∀ (useTurso : Bool) (tid t0 now : Int) (db1 : Db) (r : UserRow),
      t0 ≠ 0 → now - t0 < FREE_COOLDOWN_DAYS * 86400 →
      sqlite_get_or_create_user [] tid "" "" t0 = some (db1, r) →
      check_can_solve useTurso (applyN 10 (fun d => increment_usage d tid) db1) tid now =
        some (applyN 10 (fun d => increment_usage d tid) db1,
          { allowed := false, remaining := .num 0, reason := "limit" })) ∧
    (∀ (useTurso : Bool) (db : Db) (tid now : Int) (u : UserRow),
      dbFind db tid = some u → u.is_banned = 0 → u.is_pro = 0 → u.period_start ≠ 0 →
      FREE_COOLDOWN_DAYS * 86400 ≤ now - u.period_start →
      check_can_solve useTurso db tid now =
        some (reset_requests_at db tid now,
          { allowed := true, remaining := .num 10, reason := "free" })) := by
  constructor
  · intro useTurso tid t0 now db1 r ht0 hwin hcreate
    rw [sqlite_create_fresh] at hcreate
    simp only [Option.some.injEq, Prod.mk.injEq] at hcreate
    obtain ⟨hdb1, hr⟩ := hcreate
    subst hdb1
    rw [applyN_increment]
    norm_num
    have hfind : dbFind [(⟨tid, "", "", 0, 0, 10, t0, t0⟩ : UserRow)] tid =
        some ⟨tid, "", "", 0, 0, 10, t0, t0⟩ := by
      simp [dbFind, List.find?]
    have hg := get_or_create_found useTurso _ tid now _ hfind
    unfold check_can_solve
    rw [hg]
    dsimp only
    norm_num
    simp only [FREE_COOLDOWN_DAYS, FREE_LIMIT] at hwin ⊢
    rw [if_neg ht0, if_neg (show ¬((7 : Int) * 86400 ≤ now - t0) by omega)]
    norm_num
  · intro useTurso db tid now u hfind hb hp hps hwin
    have hg := get_or_create_found useTurso db tid now u hfind
    unfold check_can_solve
    rw [hg]
    simp only [hb, hp]
    norm_num
    rw [if_neg hps, if_pos hwin]
    norm_num [FREE_LIMIT]

/-- Witness for claim C6: identity 42 created at second 1000; after ten
increments an evaluation one day later is denied with reason limit, and an
evaluation of a ten-request record seven days later resets the stored
counter and grants ten. -/
theorem claim6_limit_then_reset_witness :
    check_can_solve false (applyN 10 (fun d => increment_usage d 42)
        [⟨42, "", "", 0, 0, 0, 1000, 1000⟩]) 42 87400 =
      some (applyN 10 (fun d => increment_usage d 42) [⟨42, "", "", 0, 0, 0, 1000, 1000⟩],
        { allowed := false, remaining := .num 0, reason := "limit" }) ∧
    check_can_solve false [⟨42, "", "", 0, 0, 10, 1000, 1000⟩] 42 605800 =
      some (reset_requests_at [⟨42, "", "", 0, 0, 10, 1000, 1000⟩] 42 605800,
        { allowed := true, remaining := .num 10, reason := "free" }) :=
  ⟨(claim6_limit_then_reset).1 false 42 1000 87400 [⟨42, "", "", 0, 0, 0, 1000, 1000⟩]
      ⟨42, "", "", 0, 0, 0, 1000, 1000⟩ (by decide) (by decide) (by decide),
   (claim6_limit_then_reset).2 false [⟨42, "", "", 0, 0, 10, 1000, 1000⟩] 42 605800
      ⟨42, "", "", 0, 0, 10, 1000, 1000⟩ (by decide) (by decide) (by decide) (by decide)
      (by decide)⟩

/-- Claim C7: get-or-create is idempotent on both backends: with the record
present and empty profile arguments it returns the stored record and leaves
the table unchanged (so no duplicate is ever created); with a new nonempty
username it updates exactly the username (the empty first-name argument
does not overwrite the stored value) and returns the record with only that
field changed. -/
theorem claim7_get_or_create_idempotent :
    (∀ (useTurso : Bool) (db : Db) (tid now : Int) (r : UserRow),
      dbFind db tid = some r →
      get_or_create_user useTurso db tid "" "" now = some (db, r)) ∧
    (∀ (useTurso : Bool) (db : Db) (tid now : Int) (r : UserRow) (u : String),
      dbFind db tid = some r → u ≠ "" →
      get_or_create_user useTurso db tid u "" now =
        some (dbUpdateRow db tid (fun x => { x with username := u, first_name := r.first_name }),
          { r with username := u })) := by
  constructor
  · intro useTurso db tid now r h
    exact get_or_create_found useTurso db tid now r h
  · intro useTurso db tid now r u hfind hu
    rw [get_or_create_user_eq_sqlite]
    unfold sqlite_get_or_create_user
    rw [hfind]
    dsimp only
    rw [if_pos (Or.inl hu)]
    simp only [show (u ≠ "") = True by simp [hu],
      show (("" : String) ≠ "") = False by simp, if_true, if_false]
    rw [dbFind_dbUpdateRow db tid
      (fun x => { x with username := u, first_name := r.first_name }) (fun x => rfl), hfind]
    rfl

/-- Witness for claim C7: the stored record for id 7 is returned unchanged
on an empty re-creation, and a nonempty username updates only that field
while the empty first-name argument keeps the stored one. -/
theorem claim7_get_or_create_idempotent_witness :
    get_or_create_user false [⟨7, "old", "Olga", 0, 0, 3, 100, 100⟩] 7 "" "" 500 =
      some ([⟨7, "old", "Olga", 0, 0, 3, 100, 100⟩], ⟨7, "old", "Olga", 0, 0, 3, 100, 100⟩) ∧
    get_or_create_user false [⟨7, "old", "Olga", 0, 0, 3, 100, 100⟩] 7 "new" "" 500 =
      some (dbUpdateRow [⟨7, "old", "Olga", 0, 0, 3, 100, 100⟩] 7
          (fun x => { x with username := "new", first_name := "Olga" }),
        ⟨7, "new", "Olga", 0, 0, 3, 100, 100⟩) :=
  ⟨(claim7_get_or_create_idempotent).1 false [⟨7, "old", "Olga", 0, 0, 3, 100, 100⟩] 7 500
      ⟨7, "old", "Olga", 0, 0, 3, 100, 100⟩ (by decide),
   (claim7_get_or_create_idempotent).2 false [⟨7, "old", "Olga", 0, 0, 3, 100, 100⟩] 7 500
      ⟨7, "old", "Olga", 0, 0, 3, 100, 100⟩ "new" (by decide) (by decide)⟩

/-- Claim C8: every sequence of store operations from the empty table gives
the same table and the same returned records on the embedded SQLite backend
and on the remote Turso backend, whose selected rows travel as optional
text cells and are coerced back to semantic types by _turso_row_to_dict. -/
theorem claim8_backend_equivalence (ops : List StoreOp) :
    runStore tursoStep [] ops = runStore sqliteStep [] ops :=
  runStore_turso_eq_sqlite [] ops

end GD
